import Mathlib

/-
Verification development for the Lab3_IoT repository.

The repository has two components:
  * Store (src/Store/main.py): a FastAPI service with a relational table
    processed_agent_data, five CRUD endpoints, a websocket subscription set
    and a broadcast function invoked after a successful create.
  * Hub client adapter (src/Hub/app/adapters/store_api_adapter.py): posts a
    JSON array of serialized records to the Store and returns a boolean
    derived from the response status.

Modelling conventions:
  * Float-typed columns (x, y, z, latitude, longitude) are modelled as Rat:
    the code never computes with these values, it only stores and returns
    them verbatim, so any type with decidable equality models the flow.
  * datetime values are modelled by the PyDateTime structure; the function
    fromisoformat models the core of Python datetime.fromisoformat for the
    formats relevant here (date plus optional time; fractional seconds and
    offsets are out of scope).
  * The database table is a Store: a list of rows plus the next value of
    the generated integer primary key (PostgreSQL serial semantics).
  * The websocket subscription set is a duplicate-free list of handles
    (naturals standing for connection identity); list order stands for the
    iteration order of the Python set.
  * Exceptions are modelled with Except / explicit outcome values; a send
    failure during broadcast is driven by an environment sendOk predicate,
    and a persistence failure by a commitOk flag.
-/

/-- Model of a Python datetime value (date and time components). -/
structure PyDateTime where
  year : Nat
  month : Nat
  day : Nat
  hour : Nat
  minute : Nat
  second : Nat
deriving DecidableEq, Repr

/-- Parse exactly n leading decimal digits, accumulating their value. -/
def parseFixedDigits : Nat → Nat → List Char → Option (Nat × List Char)
  | 0, acc, cs => some (acc, cs)
  | _ + 1, _, [] => none
  | n + 1, acc, c :: cs =>
      if c.isDigit then parseFixedDigits n (acc * 10 + (c.toNat - 48)) cs else none

/-- Consume one expected character. -/
def expectChar (c : Char) : List Char → Option (List Char)
  | [] => none
  | x :: xs => if x == c then some xs else none

/-- Number of days in a month, with the Gregorian leap-year rule, as
enforced by the Python datetime constructor. -/
def days_in_month (year month : Nat) : Nat :=
  if month == 2 then
    (if year % 4 == 0 && (year % 100 != 0 || year % 400 == 0) then 29 else 28)
  else if month == 4 || month == 6 || month == 9 || month == 11 then 30
  else 31

/-- Parse a HH:MM:SS time part that must use up the rest of the input. -/
def parseTimePart (cs : List Char) : Option (Nat × Nat × Nat) := do
  let (h, cs) ← parseFixedDigits 2 0 cs
  let cs ← expectChar ':' cs
  let (m, cs) ← parseFixedDigits 2 0 cs
  let cs ← expectChar ':' cs
  let (s, cs) ← parseFixedDigits 2 0 cs
  if cs.isEmpty && h < 24 && m < 60 && s < 60 then some (h, m, s) else none

/-- Model of Python datetime.fromisoformat on the formats the system uses:
YYYY-MM-DD optionally followed by a T (or space) and HH:MM:SS, with the
calendar validity checks of the datetime constructor. Inputs outside this
shape fail to parse, as they raise ValueError in Python. -/
def fromisoformat (s : String) : Option PyDateTime := do
  let cs := s.data
  let (y, cs) ← parseFixedDigits 4 0 cs
  let cs ← expectChar '-' cs
  let (mo, cs) ← parseFixedDigits 2 0 cs
  let cs ← expectChar '-' cs
  let (d, cs) ← parseFixedDigits 2 0 cs
  if !(1 ≤ mo && mo ≤ 12 && 1 ≤ d && d ≤ days_in_month y mo) then none
  else
    match cs with
    | [] => some ⟨y, mo, d, 0, 0, 0⟩
    | sep :: rest =>
        if sep == 'T' || sep == ' ' then
          match parseTimePart rest with
          | some (h, mi, se) => some ⟨y, mo, d, h, mi, se⟩
          | none => none
        else none

/-- Model of AgentData.check_timestamp: a string value must parse with
fromisoformat, otherwise validation raises ValueError with this message. -/
def check_timestamp (value : String) : Except String PyDateTime :=
  match fromisoformat value with
  | some dt => Except.ok dt
  | none =>
      Except.error
        "Invalid timestamp format. Expected ISO 8601 format (YYYY-MM-DDTHH:MM:SSZ)."

/-- Model of the AccelerometerData pydantic model. -/
structure AccelerometerData where
  x : Rat
  y : Rat
  z : Rat
deriving DecidableEq, Repr

/-- Model of the GpsData pydantic model. -/
structure GpsData where
  latitude : Rat
  longitude : Rat
deriving DecidableEq, Repr

/-- Model of a validated AgentData value (timestamp already parsed). -/
structure AgentData where
  accelerometer : AccelerometerData
  gps : GpsData
  timestamp : PyDateTime
deriving DecidableEq, Repr

/-- Model of a validated ProcessedAgentData value. -/
structure ProcessedAgentData where
  road_state : String
  agent_data : AgentData
deriving DecidableEq, Repr

/-- Wire-level AgentData before validation: the timestamp is still the
inbound ISO-8601 string. -/
structure RawAgentData where
  accelerometer : AccelerometerData
  gps : GpsData
  timestamp : String
deriving DecidableEq, Repr

/-- Wire-level ProcessedAgentData before validation. -/
structure RawProcessedAgentData where
  road_state : String
  agent_data : RawAgentData
deriving DecidableEq, Repr

/-- Validation of one inbound record, as pydantic runs it while FastAPI
parses the request body: only the timestamp field can fail, the other
fields are structurally typed. -/
def validate_record (raw : RawProcessedAgentData) : Except String ProcessedAgentData :=
  match check_timestamp raw.agent_data.timestamp with
  | Except.error e => Except.error e
  | Except.ok dt =>
      Except.ok
        { road_state := raw.road_state,
          agent_data :=
            { accelerometer := raw.agent_data.accelerometer,
              gps := raw.agent_data.gps,
              timestamp := dt } }

/-- Validation of the whole inbound batch (parameter data of the create
endpoint has type List of ProcessedAgentData, so FastAPI validates every
element before the endpoint body runs; the first failing element stops
parsing with its error). -/
def validate_batch : List RawProcessedAgentData → Except String (List ProcessedAgentData)
  | [] => Except.ok []
  | r :: rest =>
      match validate_record r with
      | Except.error e => Except.error e
      | Except.ok v =>
          match validate_batch rest with
          | Except.error e => Except.error e
          | Except.ok vs => Except.ok (v :: vs)

/-- One row of the processed_agent_data table. -/
structure StoredRow where
  id : Nat
  road_state : String
  x : Rat
  y : Rat
  z : Rat
  latitude : Rat
  longitude : Rat
  timestamp : PyDateTime
deriving DecidableEq, Repr

/-- The flattening performed by the values clause of the insert statement
in create_processed_agent_data, with the generated primary key i. -/
def mk_row (i : Nat) (d : ProcessedAgentData) : StoredRow :=
  { id := i,
    road_state := d.road_state,
    x := d.agent_data.accelerometer.x,
    y := d.agent_data.accelerometer.y,
    z := d.agent_data.accelerometer.z,
    latitude := d.agent_data.gps.latitude,
    longitude := d.agent_data.gps.longitude,
    timestamp := d.agent_data.timestamp }

/-- State of the processed_agent_data table: its rows plus the next value
of the generated integer primary key. -/
structure Store where
  rows : List StoredRow
  nextId : Nat
deriving DecidableEq, Repr

/-- Store well-formedness: every stored id is below the generator value and
ids are duplicate-free (primary key uniqueness). -/
def StoreWF (st : Store) : Prop :=
  (∀ r ∈ st.rows, r.id < st.nextId) ∧ (st.rows.map StoredRow.id).Nodup

instance (st : Store) : Decidable (StoreWF st) := by
  unfold StoreWF; infer_instance

/-- Executing one insert statement of the create endpoint: the database
appends the row and assigns the next serial id. -/
def insert_row (st : Store) (d : ProcessedAgentData) : Store :=
  { rows := st.rows ++ [mk_row st.nextId d], nextId := st.nextId + 1 }

/-- The rows a batch produces when inserted starting at serial id base. -/
def rows_from (base : Nat) : List ProcessedAgentData → List StoredRow
  | [] => []
  | d :: rest => mk_row base d :: rows_from (base + 1) rest

/-- HTTP-visible outcome of an endpoint call. -/
inductive HttpOutcome where
  | success
  | notFoundError
  | validationError
  | serverError
deriving DecidableEq, Repr

/-- Status code of each outcome: 200 for success, 404 raised by the
HTTPException of the CRUD endpoints, 422 for FastAPI request validation
failure, 500 for an unhandled exception in a handler. -/
def statusCode : HttpOutcome → Nat
  | HttpOutcome.success => 200
  | HttpOutcome.notFoundError => 404
  | HttpOutcome.validationError => 422
  | HttpOutcome.serverError => 500

/-- Model of read_processed_agent_data: select the first row with the given
id; 404 when the select yields no row. -/
def read_processed_agent_data (st : Store) (i : Nat) : Except HttpOutcome StoredRow :=
  match st.rows.find? (fun r => r.id == i) with
  | none => Except.error HttpOutcome.notFoundError
  | some r => Except.ok r

/-- Executing select over the whole table: SQLAlchemy execute returns a
result object and never returns None, so the model always yields some. -/
def execute_select_all (st : Store) : Option (List StoredRow) :=
  some st.rows

/-- Model of list_processed_agent_data, including its literal None check on
the value returned by execute. -/
def list_processed_agent_data (st : Store) : Except HttpOutcome (List StoredRow) :=
  match execute_select_all st with
  | none => Except.error HttpOutcome.notFoundError
  | some rows => Except.ok rows

/-- Model of update_processed_agent_data: select first; 404 and no write
when absent; otherwise update every row matching the id (the id column is
not in the values clause, so it is unchanged), commit, re-select and return
the re-selected row. The store component of the result is the table after
the call. -/
def update_processed_agent_data (st : Store) (i : Nat) (d : ProcessedAgentData) :
    Store × Except HttpOutcome (Option StoredRow) :=
  match st.rows.find? (fun r => r.id == i) with
  | none => (st, Except.error HttpOutcome.notFoundError)
  | some _ =>
      let newRows := st.rows.map (fun r =>
        if r.id == i then
          { r with
            road_state := d.road_state,
            x := d.agent_data.accelerometer.x,
            y := d.agent_data.accelerometer.y,
            z := d.agent_data.accelerometer.z,
            latitude := d.agent_data.gps.latitude,
            longitude := d.agent_data.gps.longitude,
            timestamp := d.agent_data.timestamp }
        else r)
      let st2 : Store := { rows := newRows, nextId := st.nextId }
      (st2, Except.ok (newRows.find? (fun r => r.id == i)))

/-- Model of delete_processed_agent_data: select first; 404 and no write
when absent; otherwise delete every row matching the id, commit, and return
the row selected before deletion. -/
def delete_processed_agent_data (st : Store) (i : Nat) :
    Store × Except HttpOutcome StoredRow :=
  match st.rows.find? (fun r => r.id == i) with
  | none => (st, Except.error HttpOutcome.notFoundError)
  | some r =>
      ({ rows := st.rows.filter (fun x => !(x.id == i)), nextId := st.nextId },
       Except.ok r)

/-- Python exceptions relevant to the subscription set. -/
inductive PyError where
  | keyError
  | runtimeError
deriving DecidableEq, Repr

/-- Model of Python set.add on the subscriptions set: handles are unique
per connection lifetime, a present handle is not duplicated. The list order
stands for the iteration order of the set. -/
def set_add (s : List Nat) (h : Nat) : List Nat :=
  if s.contains h then s else s ++ [h]

/-- Model of Python set.remove on the subscriptions set: removes the
element when present and raises KeyError when absent (set.discard would be
the silent variant, the code uses set.remove). -/
def set_remove (s : List Nat) (h : Nat) : Except PyError (List Nat) :=
  if s.contains h then Except.ok (s.filter (fun x => !(x == h))) else Except.error PyError.keyError

/-- Model of the lifetime of one websocket_endpoint task: accept, add the
handle to subscriptions, block on receive_text until WebSocketDisconnect,
then remove the handle. The result is the subscriptions set after the
task, or the exception the removal raises. -/
def websocket_session (subs : List Nat) (w : Nat) : Except PyError (List Nat) :=
  set_remove (set_add subs w) w

/-- Result of one run of send_data_to_subscribers: the handles that were
sent the payload, in iteration order, and whether a send raised. The code
has no exception handling in the loop, so the first failing send ends the
loop, the handles after it receive nothing and the subscriptions set is
never mutated by this function. -/
def send_data_to_subscribers (sendOk : Nat → Bool) :
    List ProcessedAgentData → List Nat → List Nat × Bool
  | _, [] => ([], false)
  | data, w :: rest =>
      if sendOk w then
        let r := send_data_to_subscribers sendOk data rest
        (w :: r.1, r.2)
      else ([], true)

/-- Observable outcome of one call of the create endpoint. -/
structure CreateOutcome where
  store : Store
  subscribers : List Nat
  delivered : List Nat
  response : HttpOutcome
deriving DecidableEq, Repr

/-- Model of the body of create_processed_agent_data on an already
validated batch: inside the session block every record is inserted and the
transaction is committed; when the commit fails the session block rolls the
inserts back and the exception surfaces as a server error, and the
broadcast is never reached. After a successful commit
send_data_to_subscribers runs; an exception it raises also surfaces as a
server error, since the handler has no exception handling. -/
def create_processed_agent_data (commitOk : Bool) (sendOk : Nat → Bool)
    (st : Store) (subs : List Nat) (data : List ProcessedAgentData) : CreateOutcome :=
  if commitOk then
    let st1 := data.foldl insert_row st
    let b := send_data_to_subscribers sendOk data subs
    { store := st1, subscribers := subs, delivered := b.1,
      response := if b.2 then HttpOutcome.serverError else HttpOutcome.success }
  else
    { store := st, subscribers := subs, delivered := [],
      response := HttpOutcome.serverError }

/-- The create endpoint as reached over HTTP: FastAPI validates the whole
body into List ProcessedAgentData before the handler body runs; a
validation failure answers 422 and the handler, hence any database or
broadcast activity, never starts. -/
def create_endpoint (commitOk : Bool) (sendOk : Nat → Bool)
    (st : Store) (subs : List Nat) (raws : List RawProcessedAgentData) : CreateOutcome :=
  match validate_batch raws with
  | Except.error _ =>
      { store := st, subscribers := subs, delivered := [],
        response := HttpOutcome.validationError }
  | Except.ok data => create_processed_agent_data commitOk sendOk st subs data

/-- A registry mutation another task can perform between awaits. -/
inductive RegOp where
  | add (h : Nat)
  | remove (h : Nat)
deriving DecidableEq, Repr

/-- Effect of a registry mutation on the subscriptions set (remove is only
issued by websocket_endpoint for a present handle). -/
def apply_reg_op (s : List Nat) : RegOp → List Nat
  | RegOp.add h => set_add s h
  | RegOp.remove h => s.filter (fun x => !(x == h))

/-- One scheduling event during a broadcast: either the broadcast loop
performs its next iteration step (the await send makes every step a
suspension point), or a concurrently scheduled task mutates the registry. -/
inductive BEvent where
  | sendStep
  | interleave (op : RegOp)
deriving DecidableEq, Repr

/-- State of the broadcast loop while it iterates the live subscriptions
set: the current set, how many elements the iterator has yielded, the set
size captured when the iterator was created, and the handles sent so far. -/
structure LiveLoop where
  reg : List Nat
  visited : Nat
  sizeAtCreate : Nat
  delivered : List Nat
deriving DecidableEq, Repr

/-- Result of running the broadcast loop under a schedule. -/
inductive BRun where
  | done (delivered : List Nat) (reg : List Nat)
  | runtimeError (delivered : List Nat) (reg : List Nat)
  | pending (st : LiveLoop)
deriving DecidableEq, Repr

/-- Small-step run of the send loop of send_data_to_subscribers over the
live set under a schedule of events. A CPython set iterator checks on every
next call that the set size still equals the size recorded at iterator
creation and raises RuntimeError otherwise; this check is modelled before
each yield. Sends themselves are assumed to succeed here: this model
isolates the iteration-versus-mutation behaviour. -/
def run_live : List BEvent → LiveLoop → BRun
  | [], st => BRun.pending st
  | BEvent.sendStep :: rest, st =>
      if st.reg.length ≠ st.sizeAtCreate then
        BRun.runtimeError st.delivered st.reg
      else if h : st.visited < st.reg.length then
        run_live rest
          { st with
            visited := st.visited + 1,
            delivered := st.delivered ++ [st.reg.get ⟨st.visited, h⟩] }
      else BRun.done st.delivered st.reg
  | BEvent.interleave op :: rest, st =>
      run_live rest { st with reg := apply_reg_op st.reg op }

/-- Modelled from the spec: the Broadcast Coordinator takes a snapshot()
copy of the membership and delivers to every handle of that copy, while
interleaved registry mutations act only on the registry and never on the
iteration. Result: the delivered handles and the registry afterwards. -/
def broadcast_over_snapshot (snap : List Nat) (ops : List RegOp) : List Nat × List Nat :=
  (snap, ops.foldl apply_reg_op snap)

/-- An HTTP response as the requests library presents it to the adapter. -/
structure HttpResponse where
  status_code : Nat
  body : String
deriving DecidableEq, Repr

/-- One outbound POST request of the adapter. -/
structure PostRequest where
  url : String
  body : String
deriving DecidableEq, Repr

/-- requests.codes.ok is the numeric status 200. -/
def requests_codes_ok : Nat := 200

/-- Model of StoreApiAdapter.save_data. The serialization of one record is
the pydantic model_dump_json method of the Hub entity, kept abstract as a
parameter; respond is the network environment answering the single POST.
The result lists every request issued (exactly one, no retry) together
with the returned boolean. -/
def save_data {α : Type} (respond : PostRequest → HttpResponse)
    (model_dump_json : α → String) (api_base_url : String)
    (processed_agent_data_batch : List α) : List PostRequest × Bool :=
  let api_endpoint_url := api_base_url ++ "/processed_agent_data"
  let processed_data := processed_agent_data_batch.map model_dump_json
  let req : PostRequest :=
    { url := api_endpoint_url,
      body := "[" ++ String.intercalate "," processed_data ++ "]" }
  let response := respond req
  if response.status_code ≠ requests_codes_ok then ([req], false) else ([req], true)

/-
Helper lemmas (shared; none of them is a claim theorem).
-/

/-- The broadcast loop delivers exactly to the longest prefix of handles
whose sends succeed, and raises exactly when some send fails. -/
theorem send_data_to_subscribers_eq (sendOk : Nat → Bool)
    (data : List ProcessedAgentData) (subs : List Nat) :
    send_data_to_subscribers sendOk data subs =
      (subs.takeWhile sendOk, !subs.all sendOk) := by
  induction subs with
  | nil => simp [send_data_to_subscribers]
  | cons w rest ih =>
      by_cases hw : sendOk w
      · simp [send_data_to_subscribers, hw, ih, List.takeWhile_cons, List.all_cons]
      · simp [send_data_to_subscribers, hw, List.takeWhile_cons, List.all_cons]

/-- Folding the per-record insert over a batch appends the rows generated
from the current serial value and advances the serial by the batch length. -/
theorem foldl_insert_row (data : List ProcessedAgentData) (st : Store) :
    data.foldl insert_row st =
      { rows := st.rows ++ rows_from st.nextId data,
        nextId := st.nextId + data.length } := by
  induction data generalizing st with
  | nil => simp [rows_from]
  | cons d rest ih =>
      rw [List.foldl_cons, ih]
      simp [insert_row, rows_from, List.append_assoc]
      omega

/-- The id column of the rows generated from a batch is the contiguous
range starting at the base serial value. -/
theorem map_id_rows_from (data : List ProcessedAgentData) (base : Nat) :
    (rows_from base data).map StoredRow.id = List.range' base data.length := by
  induction data generalizing base with
  | nil => simp [rows_from]
  | cons d rest ih =>
      simp [rows_from, List.range'_succ, mk_row, ih]

/-- Selecting the k-th assigned id among the rows generated from a batch
yields exactly the row built from the k-th record. -/
theorem find?_rows_from (data : List ProcessedAgentData) (base k : Nat)
    (hk : k < data.length) :
    (rows_from base data).find? (fun r => r.id == base + k) =
      some (mk_row (base + k) (data.get ⟨k, hk⟩)) := by
  induction data generalizing base k with
  | nil => simp at hk
  | cons d rest ih =>
      cases k with
      | zero =>
          simp [rows_from, mk_row]
      | succ k =>
          have hne : ((mk_row base d).id == base + (k + 1)) = false := by
            simp [mk_row]
          have hk2 : k < rest.length := by simpa using Nat.lt_of_succ_lt_succ hk
          have := ih (base + 1) k hk2
          simp only [rows_from, List.find?_cons, hne]
          rw [show base + 1 + k = base + (k + 1) by omega] at this
          simpa using this

/-- Rows whose id differs from i never satisfy the select predicate after
a delete of i: the filtered list has no row with id i. -/
theorem find?_filter_ne_none (l : List StoredRow) (i : Nat) :
    (l.filter (fun x => !(x.id == i))).find? (fun r => r.id == i) = none := by
  rw [List.find?_eq_none]
  intro x hx
  have := (List.mem_filter.mp hx).2
  simp at this ⊢
  exact this

/-- If some record of the inbound batch has a timestamp that fromisoformat
rejects, batch validation fails. -/
theorem validate_batch_error_of_bad_timestamp (raws : List RawProcessedAgentData)
    (h : ∃ r ∈ raws, fromisoformat r.agent_data.timestamp = none) :
    ∃ e, validate_batch raws = Except.error e := by
  induction raws with
  | nil => simp at h
  | cons r0 rest ih =>
      rcases h with ⟨r, hr, hbad⟩
      rcases List.mem_cons.mp hr with rfl | hmem
      · refine ⟨"Invalid timestamp format. Expected ISO 8601 format (YYYY-MM-DDTHH:MM:SSZ).", ?_⟩
        simp [validate_batch, validate_record, check_timestamp, hbad]
      · cases h0 : fromisoformat r0.agent_data.timestamp with
        | none =>
            refine ⟨"Invalid timestamp format. Expected ISO 8601 format (YYYY-MM-DDTHH:MM:SSZ).", ?_⟩
            simp [validate_batch, validate_record, check_timestamp, h0]
        | some dt =>
            rcases ih ⟨r, hmem, hbad⟩ with ⟨e, he⟩
            refine ⟨e, ?_⟩
            simp [validate_batch, validate_record, check_timestamp, h0, he]

/-- A concrete valid record used by the concrete instantiations below
(the round-trip example of the spec). -/
def sample_record : ProcessedAgentData :=
  { road_state := "good",
    agent_data :=
      { accelerometer := { x := 1, y := 2, z := 3 },
        gps := { latitude := 10, longitude := 20 },
        timestamp := { year := 2024, month := 1, day := 1, hour := 0, minute := 0, second := 0 } } }

/-- The same record at wire level with the malformed timestamp of the
spec example. -/
def sample_raw_bad : RawProcessedAgentData :=
  { road_state := "good",
    agent_data :=
      { accelerometer := { x := 1, y := 2, z := 3 },
        gps := { latitude := 10, longitude := 20 },
        timestamp := "not-a-date" } }

/-- C10: the list-all endpoint succeeds on every store state and returns
exactly the rows of the table; on the empty store it returns the empty
array rather than not-found, because execute never yields None and hence
the not-found branch of list_processed_agent_data is unreachable. -/
theorem list_endpoint_always_succeeds (st : Store) :
    list_processed_agent_data st = Except.ok st.rows ∧
    list_processed_agent_data { rows := [], nextId := 1 } = Except.ok [] :=
  ⟨rfl, rfl⟩

/-- C9: save_data issues exactly one POST, whose body is the bracketed
comma-join of the serialized records (the JSON array), and its boolean
result equals the comparison of the response status with
requests.codes.ok: true exactly for the success status 200, any other
status uniformly giving false; the response body is not inspected and no
second request is made. -/
theorem save_data_single_post_status_only {α : Type}
    (respond : PostRequest → HttpResponse) (model_dump_json : α → String)
    (api_base_url : String) (batch : List α) :
    (save_data respond model_dump_json api_base_url batch).1 =
      [{ url := api_base_url ++ "/processed_agent_data",
         body := "[" ++ String.intercalate "," (batch.map model_dump_json) ++ "]" }] ∧
    (save_data respond model_dump_json api_base_url batch).2 =
      ((respond { url := api_base_url ++ "/processed_agent_data",
                  body := "[" ++ String.intercalate "," (batch.map model_dump_json) ++ "]" }).status_code
        == requests_codes_ok) := by
  constructor
  · simp only [save_data]
    split <;> rfl
  · simp only [save_data]
    split
    · next h => simp [h]
    · next h => simp at h; simp [h]

/-- C6: when an identifier is absent from the store, read, update and
delete each answer the not-found error, whose status 404 differs from the
validation status 422 and the server-error status 500, and the update and
delete leave the table unchanged (no write happens). -/
theorem absent_id_crud_not_found (st : Store) (i : Nat) (d : ProcessedAgentData)
    (h : st.rows.find? (fun r => r.id == i) = none) :
    read_processed_agent_data st i = Except.error HttpOutcome.notFoundError ∧
    update_processed_agent_data st i d = (st, Except.error HttpOutcome.notFoundError) ∧
    delete_processed_agent_data st i = (st, Except.error HttpOutcome.notFoundError) ∧
    statusCode HttpOutcome.notFoundError ≠ statusCode HttpOutcome.validationError ∧
    statusCode HttpOutcome.notFoundError ≠ statusCode HttpOutcome.serverError := by
  refine ⟨?_, ?_, ?_, by decide, by decide⟩ <;>
    simp [read_processed_agent_data, update_processed_agent_data,
      delete_processed_agent_data, h]

/-- Concrete instantiation of absent_id_crud_not_found on the empty store
and identifier 7. -/
theorem absent_id_crud_not_found_witness :
    ({ rows := [], nextId := 1 } : Store).rows.find? (fun r => r.id == 7) = none ∧
    read_processed_agent_data { rows := [], nextId := 1 } 7 =
      Except.error HttpOutcome.notFoundError :=
  ⟨by decide,
   (absent_id_crud_not_found { rows := [], nextId := 1 } 7 sample_record (by decide)).1⟩

/-- C7: deleting a present identifier removes exactly the rows carrying it
and returns the row selected before deletion (whose id is the requested
one); afterwards a read of that identifier answers not-found, and a second
delete answers not-found on the unchanged table instead of crashing. -/
theorem delete_present_then_gone (st : Store) (i : Nat) (r : StoredRow)
    (h : st.rows.find? (fun x => x.id == i) = some r) :
    delete_processed_agent_data st i =
      ({ rows := st.rows.filter (fun x => !(x.id == i)), nextId := st.nextId },
       Except.ok r) ∧
    r.id = i ∧
    read_processed_agent_data (delete_processed_agent_data st i).1 i =
      Except.error HttpOutcome.notFoundError ∧
    delete_processed_agent_data (delete_processed_agent_data st i).1 i =
      ((delete_processed_agent_data st i).1, Except.error HttpOutcome.notFoundError) := by
  have hfilter := find?_filter_ne_none st.rows i
  have hrid : r.id = i := by
    have := List.find?_some h
    simpa using this
  refine ⟨?_, hrid, ?_, ?_⟩ <;>
    simp [delete_processed_agent_data, read_processed_agent_data, h, hfilter]

/-- Concrete instantiation of delete_present_then_gone on a one-row store. -/
theorem delete_present_then_gone_witness :
    ({ rows := [mk_row 1 sample_record], nextId := 2 } : Store).rows.find?
        (fun x => x.id == 1) = some (mk_row 1 sample_record) ∧
    read_processed_agent_data
        (delete_processed_agent_data { rows := [mk_row 1 sample_record], nextId := 2 } 1).1 1 =
      Except.error HttpOutcome.notFoundError :=
  ⟨by decide,
   (delete_present_then_gone { rows := [mk_row 1 sample_record], nextId := 2 } 1
      (mk_row 1 sample_record) (by decide)).2.2.1⟩

/-- C5 counterexample: the registry removal the code performs is Python
set.remove, which raises KeyError on an absent handle; removing from the
empty registry is an error, not a no-op. -/
theorem remove_absent_raises_counterexample :
    set_remove [] 0 = Except.error PyError.keyError ∧
    set_remove [] 0 ≠ Except.ok [] := by
  refine ⟨rfl, fun hcon => ?_⟩
  rw [show set_remove ([] : List Nat) 0 = Except.error PyError.keyError from rfl] at hcon
  exact Except.noConfusion hcon

/-- C5 amended: a websocket lifetime with a fresh handle adds the handle
and, at teardown on disconnect, removes it exactly once while it is
present, restoring the registry; but removal of an absent handle raises
KeyError rather than being a silent no-op, so a second removal attempt
for the same handle raises. -/
theorem websocket_teardown_remove_once (subs : List Nat) (w : Nat)
    (hw : subs.contains w = false) :
    websocket_session subs w = Except.ok subs ∧
    set_remove subs w = Except.error PyError.keyError := by
  have hmem : w ∉ subs := by simpa using hw
  constructor
  · unfold websocket_session set_add
    rw [if_neg (by simpa using hmem)]
    unfold set_remove
    rw [if_pos (by simp)]
    congr 1
    rw [List.filter_append]
    have h1 : subs.filter (fun x => !(x == w)) = subs := by
      apply List.filter_eq_self.mpr
      intro x hx
      simp
      intro hxw
      exact hmem (hxw ▸ hx)
    simp [h1]
  · unfold set_remove
    rw [if_neg (by simpa using hmem)]

/-- Concrete instantiation of websocket_teardown_remove_once: handle 2
joins a registry holding handle 1, disconnects, and a second removal
attempt raises. -/
theorem websocket_teardown_remove_once_witness :
    ([1] : List Nat).contains 2 = false ∧
    websocket_session [1] 2 = Except.ok [1] ∧
    set_remove [1] 2 = Except.error PyError.keyError :=
  ⟨by decide,
   (websocket_teardown_remove_once [1] 2 (by decide)).1,
   (websocket_teardown_remove_once [1] 2 (by decide)).2⟩

/-- C2: the create endpoint never delivers to any subscriber when request
validation fails or the transactional commit fails: the broadcast is only
reached after a successful commit, so there is no speculative delivery,
and the failed request does not answer success. -/
theorem no_speculative_delivery (commitOk : Bool) (sendOk : Nat → Bool)
    (st : Store) (subs : List Nat) (raws : List RawProcessedAgentData)
    (h : (∃ e, validate_batch raws = Except.error e) ∨ commitOk = false) :
    (create_endpoint commitOk sendOk st subs raws).delivered = [] ∧
    (create_endpoint commitOk sendOk st subs raws).store = st ∧
    (create_endpoint commitOk sendOk st subs raws).response ≠ HttpOutcome.success := by
  rcases h with ⟨e, he⟩ | hc
  · simp [create_endpoint, he]
  · subst hc
    cases hv : validate_batch raws with
    | error e => simp [create_endpoint, hv]
    | ok data => simp [create_endpoint, hv, create_processed_agent_data]

/-- Concrete instantiation of no_speculative_delivery: a commit failure on
a valid batch delivers to nobody although a subscriber is connected. -/
theorem no_speculative_delivery_witness :
    ((∃ e, validate_batch [] = Except.error e) ∨ false = false) ∧
    (create_endpoint false (fun _ => true) { rows := [], nextId := 1 } [1] []).delivered = [] ∧
    (create_endpoint false (fun _ => true) { rows := [], nextId := 1 } [1] []).response ≠
      HttpOutcome.success :=
  ⟨Or.inr rfl,
   (no_speculative_delivery false (fun _ => true) { rows := [], nextId := 1 } [1] []
      (Or.inr rfl)).1,
   (no_speculative_delivery false (fun _ => true) { rows := [], nextId := 1 } [1] []
      (Or.inr rfl)).2.2⟩

/-- C8: when some inbound record of the batch carries a timestamp string
that fromisoformat rejects, the whole create request is answered with the
validation error (status 422, a client error) while the table, the
registry and the deliveries stay untouched: validation happens before the
handler body, hence before any persistence, and no value is coerced into
the store. -/
theorem malformed_timestamp_rejected (commitOk : Bool) (sendOk : Nat → Bool)
    (st : Store) (subs : List Nat) (raws : List RawProcessedAgentData)
    (h : ∃ r ∈ raws, fromisoformat r.agent_data.timestamp = none) :
    create_endpoint commitOk sendOk st subs raws =
      { store := st, subscribers := subs, delivered := [],
        response := HttpOutcome.validationError } ∧
    statusCode HttpOutcome.validationError = 422 := by
  rcases validate_batch_error_of_bad_timestamp raws h with ⟨e, he⟩
  exact ⟨by simp [create_endpoint, he], rfl⟩

/-- Concrete instantiation of malformed_timestamp_rejected on the spec
example timestamp "not-a-date". -/
theorem malformed_timestamp_rejected_witness :
    (∃ r ∈ [sample_raw_bad], fromisoformat r.agent_data.timestamp = none) ∧
    create_endpoint true (fun _ => true) { rows := [], nextId := 1 } [1] [sample_raw_bad] =
      { store := { rows := [], nextId := 1 }, subscribers := [1], delivered := [],
        response := HttpOutcome.validationError } :=
  ⟨by decide,
   (malformed_timestamp_rejected true (fun _ => true) { rows := [], nextId := 1 } [1]
      [sample_raw_bad] (by decide)).1⟩

/-- C1 counterexample: with subscribers 1 and 2 where the send to handle 1
fails during the broadcast of a committed batch, the send loop stops at
handle 1: handle 2 receives nothing, handle 1 is not removed from the
registry, and the create request that committed successfully answers the
server error instead of success, refuting removal, continuation and error
containment at this input. -/
theorem broadcast_failure_counterexample :
    (create_processed_agent_data true (fun w => w == 2) { rows := [], nextId := 1 }
        [1, 2] [sample_record]).delivered = [] ∧
    (create_processed_agent_data true (fun w => w == 2) { rows := [], nextId := 1 }
        [1, 2] [sample_record]).subscribers = [1, 2] ∧
    (create_processed_agent_data true (fun w => w == 2) { rows := [], nextId := 1 }
        [1, 2] [sample_record]).response ≠ HttpOutcome.success := by decide

/-- C1 amended: send_data_to_subscribers has no per-handle error handling,
so when some send fails the committed batch is delivered only to the
longest prefix of the iteration order whose sends succeed, the registry is
left unchanged (the failing handle is not removed), and the exception
surfaces out of create_processed_agent_data as a server error on the
request whose commit already succeeded. -/
theorem broadcast_failure_aborts (sendOk : Nat → Bool) (st : Store)
    (subs : List Nat) (data : List ProcessedAgentData)
    (h : subs.all sendOk = false) :
    (create_processed_agent_data true sendOk st subs data).delivered =
      subs.takeWhile sendOk ∧
    (create_processed_agent_data true sendOk st subs data).subscribers = subs ∧
    (create_processed_agent_data true sendOk st subs data).response =
      HttpOutcome.serverError := by
  simp [create_processed_agent_data, send_data_to_subscribers_eq, h]

/-- Concrete instantiation of broadcast_failure_aborts with subscribers
1 and 2 and the send to 1 failing. -/
theorem broadcast_failure_aborts_witness :
    ([1, 2] : List Nat).all (fun w => w == 2) = false ∧
    (create_processed_agent_data true (fun w => w == 2) { rows := [], nextId := 1 }
        [1, 2] [sample_record]).response = HttpOutcome.serverError :=
  ⟨by decide,
   (broadcast_failure_aborts (fun w => w == 2) { rows := [], nextId := 1 }
      [1, 2] [sample_record] (by decide)).2.2⟩

/-- C4 counterexample: the broadcast loop iterates the live subscriptions
set, not a snapshot. Starting from registry [1, 2], one completed send
step followed by an interleaved disconnect of the already served handle 1
changes the set size, so the next iteration step raises RuntimeError:
handle 2, a member during the whole broadcast, never receives the payload,
whereas the snapshot iteration required by the claim delivers to both
handles; the registries agree but the deliveries differ. -/
theorem live_iteration_counterexample :
    run_live [BEvent.sendStep, BEvent.interleave (RegOp.remove 1), BEvent.sendStep]
        { reg := [1, 2], visited := 0, sizeAtCreate := 2, delivered := [] } =
      BRun.runtimeError [1] [2] ∧
    broadcast_over_snapshot [1, 2] [RegOp.remove 1] = ([1, 2], [2]) ∧
    ([1] : List Nat) ≠ [1, 2] := by decide

/-- C4 amended: the broadcast loop of send_data_to_subscribers iterates
the live shared set with no snapshot copy and no lock; the only
synchronization is the single-threaded event loop. Whenever a registry
mutation that changes the set size is interleaved at the await point
between two sends, the next iteration step of the live loop raises
RuntimeError (set changed size during iteration), freezing the deliveries
made so far and denying the payload to the remaining members. -/
theorem live_iteration_mutation_hazard (st : LiveLoop) (op : RegOp)
    (rest : List BEvent)
    (h : (apply_reg_op st.reg op).length ≠ st.sizeAtCreate) :
    run_live (BEvent.interleave op :: BEvent.sendStep :: rest) st =
      BRun.runtimeError st.delivered (apply_reg_op st.reg op) := by
  simp [run_live, h]

/-- Concrete instantiation of live_iteration_mutation_hazard: after handle
1 was served, its disconnect interleaves and the next step raises. -/
theorem live_iteration_mutation_hazard_witness :
    (apply_reg_op [1, 2] (RegOp.remove 1)).length ≠
      ({ reg := [1, 2], visited := 1, sizeAtCreate := 2, delivered := [1] } : LiveLoop).sizeAtCreate ∧
    run_live [BEvent.interleave (RegOp.remove 1), BEvent.sendStep]
        { reg := [1, 2], visited := 1, sizeAtCreate := 2, delivered := [1] } =
      BRun.runtimeError [1] [2] :=
  ⟨by decide,
   by
     have h := live_iteration_mutation_hazard
       { reg := [1, 2], visited := 1, sizeAtCreate := 2, delivered := [1] }
       (RegOp.remove 1) [] (by decide)
     simpa using h⟩

/-- Unfolding of the read endpoint on a store literal. -/
theorem read_processed_agent_data_mk (rows : List StoredRow) (n i : Nat) :
    read_processed_agent_data { rows := rows, nextId := n } i =
      match rows.find? (fun r => r.id == i) with
      | none => Except.error HttpOutcome.notFoundError
      | some r => Except.ok r := rfl

/-- C3: on a well-formed store, creating a valid batch makes every record
of the batch retrievable through the read endpoint under its
store-assigned identifier (the serial values nextId, nextId+1, ...,
assigned by the store and not taken from the input), returning a row whose
road_state, x, y, z, latitude, longitude and timestamp equal the submitted
field values; afterwards the store is still well-formed and no two rows of
the store share an identifier. -/
theorem create_roundtrip_unique_ids (st : Store) (sendOk : Nat → Bool)
    (subs : List Nat) (data : List ProcessedAgentData) (k : Nat)
    (hwf : StoreWF st) (hk : k < data.length) :
    read_processed_agent_data
        (create_processed_agent_data true sendOk st subs data).store (st.nextId + k) =
      Except.ok
        { id := st.nextId + k,
          road_state := (data.get ⟨k, hk⟩).road_state,
          x := (data.get ⟨k, hk⟩).agent_data.accelerometer.x,
          y := (data.get ⟨k, hk⟩).agent_data.accelerometer.y,
          z := (data.get ⟨k, hk⟩).agent_data.accelerometer.z,
          latitude := (data.get ⟨k, hk⟩).agent_data.gps.latitude,
          longitude := (data.get ⟨k, hk⟩).agent_data.gps.longitude,
          timestamp := (data.get ⟨k, hk⟩).agent_data.timestamp } ∧
    StoreWF (create_processed_agent_data true sendOk st subs data).store ∧
    ((create_processed_agent_data true sendOk st subs data).store.rows.map
        StoredRow.id).Nodup := by
  have hstore : (create_processed_agent_data true sendOk st subs data).store =
      { rows := st.rows ++ rows_from st.nextId data,
        nextId := st.nextId + data.length } := by
    simp [create_processed_agent_data, foldl_insert_row]
  have hold : st.rows.find? (fun r => r.id == st.nextId + k) = none := by
    rw [List.find?_eq_none]
    intro x hx
    have := hwf.1 x hx
    simp
    omega
  have hwf2 : StoreWF
      { rows := st.rows ++ rows_from st.nextId data,
        nextId := st.nextId + data.length } := by
    constructor
    · intro r hr
      simp only [List.mem_append] at hr
      rcases hr with h1 | h2
      · have := hwf.1 r h1
        simp
        omega
      · have hmap : r.id ∈ (rows_from st.nextId data).map StoredRow.id :=
          List.mem_map_of_mem _ h2
        rw [map_id_rows_from] at hmap
        rcases List.mem_range'.mp hmap with ⟨i, hi, hei⟩
        simp
        omega
    · simp only [List.map_append, map_id_rows_from]
      refine List.Nodup.append hwf.2 (List.nodup_range' _ _) ?_
      intro a ha hb
      rcases List.mem_map.mp ha with ⟨r, hr, rfl⟩
      have h1 := hwf.1 r hr
      rcases List.mem_range'.mp hb with ⟨i, hi, hei⟩
      omega
  refine ⟨?_, ?_, ?_⟩
  · rw [hstore, read_processed_agent_data_mk, List.find?_append, hold,
      Option.none_or, find?_rows_from data st.nextId k hk]
    rfl
  · rw [hstore]; exact hwf2
  · rw [hstore]; exact hwf2.2

/-- Concrete instantiation of create_roundtrip_unique_ids: the round-trip
example of the spec on the empty store, read back under the assigned
identifier 1. -/
theorem create_roundtrip_unique_ids_witness :
    StoreWF { rows := [], nextId := 1 } ∧ 0 < [sample_record].length ∧
    read_processed_agent_data
        (create_processed_agent_data true (fun _ => true) { rows := [], nextId := 1 }
          [] [sample_record]).store 1 =
      Except.ok (mk_row 1 sample_record) ∧
    ((create_processed_agent_data true (fun _ => true) { rows := [], nextId := 1 }
        [] [sample_record]).store.rows.map StoredRow.id).Nodup := by
  have h := create_roundtrip_unique_ids { rows := [], nextId := 1 } (fun _ => true)
    [] [sample_record] 0 (by decide) (by decide)
  refine ⟨by decide, by decide, ?_, h.2.2⟩
  have h1 := h.1
  simpa [mk_row] using h1
